import Mathlib

/-!
Verification development for the add-creche billing API.

The repository holds several near-duplicate revisions of one Express
server.  The shallow embedding below follows the revision that carries the
reconciliation and remittance subsystem:

* the return-file reconciliation route `POST /api/processar-retorno`
  (server.js, lines 606-684, identical in part_002);
* the remittance marking route `POST /api/marcar-remessa`
  (part_000, lines 430-467, the PostgreSQL revision that also sets
  `statusRemessa`);
* the archive route `POST /api/arquivar-remessa` (part_001);
* the configuration routes (part_000, lines 346-427);
* the listing routes (part_000, lines 181-226).

Machine-level details that the routes delegate to external collaborators
(the SQL store, the HTTP layer) are embedded by their documented semantics:
a table is a list of rows, `UPDATE ... WHERE id = x` maps the rows, and an
`UPDATE` that matches no row succeeds with zero affected rows.
-/

/-- A row of the `cobrancas` table, with the client-facing field names of the
PostgreSQL revision (part_000): `id`, `clienteId`, `descricao`, `valor`,
`vencimento`, `status`, `statusRemessa`, `nsa_remessa`. -/
structure Cobranca where
  id : String
  clienteId : String
  descricao : String
  valor : Int
  vencimento : String
  status : String
  statusRemessa : String
  nsa_remessa : Option String
deriving Repr, DecidableEq

/-- A row of the `clientes` table (part_000). -/
structure Cliente where
  id : String
  nome : String
  email : Option String
  telefone : Option String
  codigo : String
  contaCorrente : Option String
deriving Repr, DecidableEq

/-- The `cobrancas` table. -/
abbrev Store := List Cobranca

/-- The summary object assembled by `POST /api/processar-retorno`
(`detalhes` in the JSON response). -/
structure Resumo where
  processados : Nat
  pagos : Nat
  rejeitados : Nat
  errosDeAtualizacao : Nat
deriving Repr, DecidableEq

/-- Whitespace in the sense of JavaScript `String.prototype.trim` restricted
to the characters that can occur in the fixed-width bank files. -/
def espacoJs (c : Char) : Bool :=
  c == ' ' || c == '\t' || c == '\n' || c == '\r' || c == '\x0b' || c == '\x0c'

/-- JavaScript `linha.trim()`: drop whitespace from both ends. -/
def trimJs (s : String) : String :=
  String.mk (((s.data.dropWhile espacoJs).reverse.dropWhile espacoJs).reverse)

/-- JavaScript `linha.substring(a, b)` for `a ≤ b`: the characters with
indices in `[a, b)`, clamped to the length of the string. -/
def substrJs (s : String) (a b : Nat) : String :=
  String.mk ((s.data.drop a).take (b - a))

/-- JavaScript `linha.startsWith('T')`. -/
def comecaComT (s : String) : Bool :=
  match s.data with
  | [] => false
  | c :: _ => c == 'T'

/-- The skip condition of the route:
`linha.trim() === '' || !linha.startsWith('T')`. -/
def linhaIgnorada (linha : String) : Bool :=
  trimJs linha == "" || !comecaComT linha

/-- `const identificadorCobranca = linha.substring(1, 17).trim()`. -/
def extrairIdentificador (linha : String) : String :=
  trimJs (substrJs linha 1 17)

/-- `const codigoOcorrencia = linha.substring(17, 19).trim()`. -/
def extrairCodigo (linha : String) : String :=
  trimJs (substrJs linha 17 19)

/-- `codigoOcorrencia === '00' || codigoOcorrencia === 'PG'`. -/
def ehPago (codigoOcorrencia : String) : Bool :=
  codigoOcorrencia == "00" || codigoOcorrencia == "PG"

/-- The `novoStatus` assigned to the line: `'Pago'` for the success codes,
otherwise the template literal `Rejeitado (${codigoOcorrencia})`. -/
def novoStatusDe (codigoOcorrencia : String) : String :=
  if ehPago codigoOcorrencia then "Pago"
  else "Rejeitado (" ++ codigoOcorrencia ++ ")"

/-- `UPDATE cobrancas SET status = ? WHERE id = ?`: every row whose `id`
equals the parameter gets the new status; a missing id matches no row and is
not an error. -/
def atualizarStatus (st : Store) (identificadorCobranca novoStatus : String) : Store :=
  st.map fun c =>
    if c.id == identificadorCobranca then { c with status := novoStatus } else c

/-- One iteration of the `linhas.map` fan-out of `POST /api/processar-retorno`.
`falhaSql` tells whether the `db.run` call for this line reports an error
(the `err` parameter of its callback); an erroring statement does not apply
and only increments `errosDeAtualizacao`. -/
def processarLinha (falhaSql : Bool) (acc : Resumo × Store) (linha : String) :
    Resumo × Store :=
  if linhaIgnorada linha then acc
  else
    let identificadorCobranca := extrairIdentificador linha
    let codigoOcorrencia := extrairCodigo linha
    let novoStatus := novoStatusDe codigoOcorrencia
    let r := { acc.1 with
      processados := acc.1.processados + 1
      pagos := if ehPago codigoOcorrencia then acc.1.pagos + 1 else acc.1.pagos
      rejeitados := if ehPago codigoOcorrencia then acc.1.rejeitados
                    else acc.1.rejeitados + 1 }
    if novoStatus != "" && identificadorCobranca != "" then
      if falhaSql then
        ({ r with errosDeAtualizacao := r.errosDeAtualizacao + 1 }, acc.2)
      else
        (r, atualizarStatus acc.2 identificadorCobranca novoStatus)
    else
      (r, acc.2)

/-- The whole fan-out over the lines of the file, threading the tally and
the table.  The oracle `falha` gives, per line index, whether the SQL update
issued for that line errors. -/
def processarLinhas (falha : Nat → Bool) :
    List String → Nat → Resumo × Store → Resumo × Store
  | [], _, acc => acc
  | linha :: resto, i, acc =>
      processarLinhas falha resto (i + 1) (processarLinha (falha i) acc linha)

/-- `POST /api/processar-retorno` on an already split file: zeroed counters,
then the per-line processing of every line. -/
def processarRetorno (falha : Nat → Bool) (linhas : List String) (st : Store) :
    Resumo × Store :=
  processarLinhas falha linhas 0 (⟨0, 0, 0, 0⟩, st)

/-- The oracle of a healthy store: no SQL statement errors. -/
def semFalha : Nat → Bool := fun _ => false

/-- The effect of one line on one row of the table, mirroring
`processarLinha` (which touches the table only through `atualizarStatus`,
a per-row map). -/
def aplicarLinha (falhaSql : Bool) (linha : String) (c : Cobranca) : Cobranca :=
  if linhaIgnorada linha then c
  else
    let identificadorCobranca := extrairIdentificador linha
    let novoStatus := novoStatusDe (extrairCodigo linha)
    if novoStatus != "" && identificadorCobranca != "" then
      if falhaSql then c
      else if c.id == identificadorCobranca then { c with status := novoStatus }
      else c
    else c

/-- The effect of a list of lines on one row. -/
def aplicarLinhas (falha : Nat → Bool) :
    List String → Nat → Cobranca → Cobranca
  | [], _, c => c
  | linha :: resto, i, c =>
      aplicarLinhas falha resto (i + 1) (aplicarLinha (falha i) linha c)

/-- The lines the route counts as transactions: non-blank and starting
with the marker. -/
def linhasTransacao (linhas : List String) : List String :=
  linhas.filter fun l => !linhaIgnorada l

/-- The charge identifiers extracted from the counted lines. -/
def identificadoresProcessados (linhas : List String) : List String :=
  (linhasTransacao linhas).map extrairIdentificador

/-- A line reaches the `db.run` call: it is counted and its extracted
identifier is non-empty (`novoStatus` is non-empty for every line, see
`novoStatusDe_ne_vazio`). -/
def linhaAplica (linha : String) : Bool :=
  !linhaIgnorada linha && extrairIdentificador linha != ""

/-- The HTTP outcomes of `POST /api/processar-retorno`: 400 without an
upload, 200 with the tally, 500 from the `catch` around `Promise.all`
(dead in this model because every per-line promise resolves on every
path, including the error path of the `db.run` callback). -/
inductive ResultadoRota where
  | semArquivo
  | ok (detalhes : Resumo) (st : Store)
  | erroInterno
deriving Repr, DecidableEq

/-- Whether the route answered 200. -/
def ResultadoRota.ehOk : ResultadoRota → Bool
  | .ok _ _ => true
  | _ => false

/-- Strip the carriage return that `/\r?\n/` consumes together with the
newline: every chunk but the last was followed by a split `\n`. -/
def tirarCR : List String → List String
  | [] => []
  | [x] => [x]
  | x :: xs =>
      (if x.endsWith "\r" then x.dropRight 1 else x) :: tirarCR xs

/-- `conteudoArquivo.split(/\r?\n/)`. -/
def dividirLinhas (conteudoArquivo : String) : List String :=
  tirarCR (conteudoArquivo.splitOn "\n")

/-- The full route: 400 when no file was uploaded, otherwise parse, fan
out, await every update and answer 200 with the tally. -/
def rotaProcessarRetorno (falha : Nat → Bool) (arquivo : Option String)
    (st : Store) : ResultadoRota :=
  match arquivo with
  | none => .semArquivo
  | some conteudoArquivo =>
      let p := processarRetorno falha (dividirLinhas conteudoArquivo) st
      .ok p.1 p.2

/-- All fields of a row except `status` agree: the shape of a row after
`UPDATE cobrancas SET status = ...`. -/
def mesmosCamposExcetoStatus (a b : Cobranca) : Prop :=
  b.id = a.id ∧ b.clienteId = a.clienteId ∧ b.descricao = a.descricao ∧
  b.valor = a.valor ∧ b.vencimento = a.vencimento ∧
  b.statusRemessa = a.statusRemessa ∧ b.nsa_remessa = a.nsa_remessa

/-- How many counted lines carry a success code. -/
def contaPagas (linhas : List String) : Nat :=
  (linhas.filter fun l => !linhaIgnorada l && ehPago (extrairCodigo l)).length

/-- How many counted lines carry a rejection code. -/
def contaRejeitadas (linhas : List String) : Nat :=
  (linhas.filter fun l => !linhaIgnorada l && !ehPago (extrairCodigo l)).length

/-! ### `POST /api/marcar-remessa` (part_000, lines 430-467) -/

/-- The outcomes of the marking route: 400 on the validation of the body,
500 when the spliced `WHERE id IN (...)` is not valid SQL (an empty id
list yields `IN ()`), 200 with the affected-row count otherwise. -/
inductive ResultadoMarcar where
  | erroValidacao
  | erroSql
  | ok (rowCount : Nat) (st : Store)
deriving Repr, DecidableEq

/-- `POST /api/marcar-remessa`: validate the body, then
`UPDATE cobrancas SET nsa_remessa = $1, "statusRemessa" = 'Processado'
WHERE id IN (...) RETURNING id` and answer with `result.rowCount`.
Rows whose id is not in the list are untouched; ids matching no row are
silently skipped. -/
def marcarRemessa (idsParaMarcar : List String) (nsaDaRemessa : String)
    (st : Store) : ResultadoMarcar :=
  if nsaDaRemessa = "" then .erroValidacao
  else if idsParaMarcar.isEmpty then .erroSql
  else
    .ok (st.filter fun c => idsParaMarcar.contains c.id).length
      (st.map fun c =>
        if idsParaMarcar.contains c.id then
          { c with nsa_remessa := some nsaDaRemessa, statusRemessa := "Processado" }
        else c)

/-! ### `POST /api/arquivar-remessa` (part_001, lines 121-156) -/

/-- The archive files on disk, one JSON document `remessa_<periodo>.json`
per period, each holding a list of charge snapshots. -/
abbrev ArquivosRemessa := String → Option (List Cobranca)

/-- Modelled from the spec: the read-merge-write step of the archive
operation is not present under src (the insertion into an archive is
commented out in part_001, and only the `remessa_*.json` readers of
`GET /api/listar-arquivos` and `GET /api/download-arquivo` remain), so the
merge follows the words of the spec, section 4.4: parse the existing
file if any, append the new snapshots to its list, rewrite it whole. -/
def mesclarCobrancas (existentes : Option (List Cobranca))
    (novas : List Cobranca) : List Cobranca :=
  match existentes with
  | none => novas
  | some antigas => antigas ++ novas

/-- Modelled from the spec: `POST /api/arquivar-remessa`.  The validation
(400 on a missing or empty `cobrancasParaArquivar`) and the deletion of the
charges by id are the code of part_001; the write of the period archive
file under read-merge-write is modelled from the spec, section 4.4. -/
def arquivarRemessa (cobrancasParaArquivar : List Cobranca) (periodo : String)
    (arquivos : ArquivosRemessa) (st : Store) :
    Option (ArquivosRemessa × Store) :=
  if cobrancasParaArquivar.isEmpty then none
  else
    let idsParaRemover := cobrancasParaArquivar.map Cobranca.id
    some
      (fun p =>
        if p = periodo then
          some (mesclarCobrancas (arquivos periodo) cobrancasParaArquivar)
        else arquivos p,
       st.filter fun c => !idsParaRemover.contains c.id)

/-! ### The configuration routes (part_000, lines 346-427) -/

/-- A row of the `configuracoes` table. -/
structure Configuracao where
  id : Nat
  ultimoNsaSequencial : Int
  parteFixaNsa : String
deriving Repr, DecidableEq

/-- The `configuracoes` table. -/
abbrev ConfigStore := List Configuracao

/-- `SELECT ... FROM configuracoes WHERE id = 1`. -/
def selecionarConfig1 (cs : ConfigStore) : Option Configuracao :=
  cs.find? fun r => r.id == 1

/-- The default row the route inserts:
`(1, 0, '04')`. -/
def configPadrao : Configuracao := ⟨1, 0, "04"⟩

/-- `GET /api/config`: select the singleton row; when absent, run
`INSERT INTO configuracoes (id, "ultimoNsaSequencial", "parteFixaNsa")
VALUES (1, 0, '04') ON CONFLICT (id) DO NOTHING`, select again and answer
with the row found, or with the default object when even the retry finds
nothing.  Returns the response body and the table afterwards. -/
def getConfig (cs : ConfigStore) : Configuracao × ConfigStore :=
  match selecionarConfig1 cs with
  | some r => (r, cs)
  | none =>
      let cs2 := if (cs.find? fun r => r.id == 1).isSome then cs
                 else cs ++ [configPadrao]
      match selecionarConfig1 cs2 with
      | some r => (r, cs2)
      | none => (configPadrao, cs2)

/-- `PUT /api/config/:id`:
`UPDATE configuracoes SET "ultimoNsaSequencial" = $1 WHERE id = $2`.
The route only ever updates; when no row matches it answers 404 and the
table is unchanged either way. -/
def atualizarConfig (idParam : Nat) (ultimoNsaSequencial : Int)
    (cs : ConfigStore) : ConfigStore :=
  cs.map fun r =>
    if r.id == idParam then { r with ultimoNsaSequencial := ultimoNsaSequencial }
    else r

/-- The operations of the configuration endpoint. -/
inductive ConfigOp where
  | buscar
  | atualizar (idParam : Nat) (ultimoNsaSequencial : Int)
deriving Repr, DecidableEq

/-- The table after one configuration request. -/
def aplicarConfigOp (cs : ConfigStore) : ConfigOp → ConfigStore
  | .buscar => (getConfig cs).2
  | .atualizar idParam v => atualizarConfig idParam v cs

/-- The table after a sequence of configuration requests. -/
def aplicarConfigOps (cs : ConfigStore) (ops : List ConfigOp) : ConfigStore :=
  ops.foldl aplicarConfigOp cs

/-- The singleton discipline: at most one configuration row, and it is the
row of id 1. -/
def estadoConfigValido (cs : ConfigStore) : Prop :=
  cs.length ≤ 1 ∧ ∀ r ∈ cs, r.id = 1

/-! ### The listing routes (part_000, lines 181-226) -/

/-- `GET /api/clientes`:
`SELECT ... FROM clientes ORDER BY nome ASC`. -/
def listarClientes (tabela : List Cliente) : List Cliente :=
  tabela.mergeSort fun a b => a.nome ≤ b.nome

/-- `GET /api/cobrancas`:
`SELECT ... FROM cobrancas ORDER BY vencimento DESC`. -/
def listarCobrancas (tabela : Store) : Store :=
  tabela.mergeSort fun a b => b.vencimento ≤ a.vencimento

/-! ### Concrete rows and files used as test inputs -/

/-- A pending charge whose id is the three characters `abc`. -/
def cobAbc : Cobranca :=
  ⟨"abc", "cli-1", "mensalidade", 100, "2025-10-01", "Pendente", "N/A", none⟩

/-- A pending charge with a full-width sixteen-character identifier. -/
def cobA16 : Cobranca :=
  ⟨"AAAAAAAAAAAAAAAA", "cli-1", "mensalidade", 100, "2025-10-01",
   "Pendente", "N/A", none⟩

/-- A charge that no test file mentions. -/
def cobZ : Cobranca :=
  ⟨"zzz", "cli-2", "material", 50, "2025-11-01", "Pendente", "N/A", none⟩

/-- A transaction line: marker, sixteen `A`, success code `00`. -/
def linhaA00 : String := "TAAAAAAAAAAAAAAAA00"

/-- A transaction line: marker, sixteen `B`, occurrence code `07`. -/
def linhaB07 : String := "TBBBBBBBBBBBBBBBB07"

/-- A second charge for the marking example, with id `c1`. -/
def cobC1 : Cobranca :=
  ⟨"c1", "cli-1", "mensalidade", 100, "2025-10-01", "Pendente", "N/A", none⟩

/-- A third charge for the marking example, with id `c3`. -/
def cobC3 : Cobranca :=
  ⟨"c3", "cli-2", "material", 50, "2025-11-01", "Pendente", "N/A", none⟩


/-! ### Basic facts about the per-line processing -/


lemma mesmosCampos_refl (a : Cobranca) : mesmosCamposExcetoStatus a a :=
  ⟨rfl, rfl, rfl, rfl, rfl, rfl, rfl⟩

lemma mesmosCampos_trans {a b c : Cobranca}
    (h1 : mesmosCamposExcetoStatus a b) (h2 : mesmosCamposExcetoStatus b c) :
    mesmosCamposExcetoStatus a c :=
  ⟨h2.1.trans h1.1, h2.2.1.trans h1.2.1, h2.2.2.1.trans h1.2.2.1,
   h2.2.2.2.1.trans h1.2.2.2.1, h2.2.2.2.2.1.trans h1.2.2.2.2.1,
   h2.2.2.2.2.2.1.trans h1.2.2.2.2.2.1, h2.2.2.2.2.2.2.trans h1.2.2.2.2.2.2⟩

/-- The `novoStatus` of a line is never the empty string: the else branch of
the classification always carries the literal `Rejeitado (...)`. -/
lemma novoStatusDe_ne_vazio (codigoOcorrencia : String) :
    novoStatusDe codigoOcorrencia ≠ "" := by
  unfold novoStatusDe
  split
  · exact fun h => absurd h (by decide)
  · intro h
    have h1 := congrArg String.data h
    rw [String.data_append, String.data_append] at h1
    simp at h1

lemma aplicarLinha_campos (b : Bool) (l : String) (c : Cobranca) :
    mesmosCamposExcetoStatus c (aplicarLinha b l c) := by
  unfold mesmosCamposExcetoStatus
  simp only [aplicarLinha, apply_ite Cobranca.id, apply_ite Cobranca.clienteId,
    apply_ite Cobranca.descricao, apply_ite Cobranca.valor,
    apply_ite Cobranca.vencimento, apply_ite Cobranca.statusRemessa,
    apply_ite Cobranca.nsa_remessa]
  simp

lemma aplicarLinha_id (b : Bool) (l : String) (c : Cobranca) :
    (aplicarLinha b l c).id = c.id :=
  (aplicarLinha_campos b l c).1

lemma aplicarLinhas_campos :
    ∀ (ls : List String) (falha : Nat → Bool) (i : Nat) (c : Cobranca),
    mesmosCamposExcetoStatus c (aplicarLinhas falha ls i c)
  | [], _, _, c => mesmosCampos_refl c
  | l :: ls, falha, i, c =>
    mesmosCampos_trans (aplicarLinha_campos (falha i) l c)
      (aplicarLinhas_campos ls falha (i + 1) (aplicarLinha (falha i) l c))

lemma aplicarLinhas_id (falha : Nat → Bool) (ls : List String) (i : Nat)
    (c : Cobranca) : (aplicarLinhas falha ls i c).id = c.id :=
  (aplicarLinhas_campos ls falha i c).1

/-- A line that does not reach `db.run` with this row's id leaves the row
alone, whatever its SQL oracle says. -/
lemma aplicarLinha_naoToca (b : Bool) (l : String) (c : Cobranca)
    (h : ¬(linhaAplica l = true ∧ extrairIdentificador l = c.id)) :
    aplicarLinha b l c = c := by
  unfold aplicarLinha
  by_cases hig : linhaIgnorada l
  · simp [hig]
  · by_cases hid : extrairIdentificador l = ""
    · simp [hig, hid]
    · have haplica : linhaAplica l = true := by
        simp [linhaAplica, hig, bne_iff_ne, hid]
      have hne : extrairIdentificador l ≠ c.id := fun he => h ⟨haplica, he⟩
      have hcid : (c.id == extrairIdentificador l) = false := by
        simp [beq_eq_false_iff_ne]
        exact fun he => hne he.symm
      simp [hig, hid, hcid, bne_iff_ne]

/-- A counted line with a non-empty identifier matching the row sets the
row's status when its statement does not error. -/
lemma aplicarLinha_aplica (l : String) (c : Cobranca)
    (hig : linhaIgnorada l = false) (hid : extrairIdentificador l ≠ "")
    (hc : c.id = extrairIdentificador l) :
    aplicarLinha false l c = { c with status := novoStatusDe (extrairCodigo l) } := by
  unfold aplicarLinha
  simp [hig, hid, hc, bne_iff_ne, novoStatusDe_ne_vazio]

lemma aplicarLinhas_naoTocaLista :
    ∀ (ls : List String) (falha : Nat → Bool) (i : Nat) (c : Cobranca),
    (∀ l ∈ ls, ¬(linhaAplica l = true ∧ extrairIdentificador l = c.id)) →
    aplicarLinhas falha ls i c = c
  | [], _, _, _, _ => rfl
  | l :: ls, falha, i, c, h => by
    rw [aplicarLinhas, aplicarLinha_naoToca (falha i) l c (h l (by simp))]
    exact aplicarLinhas_naoTocaLista ls falha (i + 1) c
      (fun l' hl' => h l' (by simp [hl']))

lemma aplicarLinhas_append :
    ∀ (xs ys : List String) (falha : Nat → Bool) (i : Nat) (c : Cobranca),
    aplicarLinhas falha (xs ++ ys) i c =
      aplicarLinhas falha ys (i + xs.length) (aplicarLinhas falha xs i c)
  | [], ys, falha, i, c => by simp [aplicarLinhas]
  | x :: xs, ys, falha, i, c => by
    have h : i + (x :: xs).length = i + 1 + xs.length := by
      simp [List.length_cons]; omega
    rw [List.cons_append, aplicarLinhas, aplicarLinhas,
      aplicarLinhas_append xs ys falha (i + 1) (aplicarLinha (falha i) x c), h]

/-- The store component of the fan-out over one line. -/
lemma processarLinha_store (b : Bool) (acc : Resumo × Store) (l : String) :
    (processarLinha b acc l).2 = acc.2.map (aplicarLinha b l) := by
  unfold processarLinha aplicarLinha atualizarStatus
  by_cases hig : linhaIgnorada l
  · simp [hig]
  · by_cases hguarda : (novoStatusDe (extrairCodigo l) != ""
        && extrairIdentificador l != "") = true
    · by_cases hb : b <;> simp [hig, hguarda, hb]
    · simp [hig, hguarda]

/-- The table after the whole fan-out is the per-row effect of all the
lines, mapped over the table: the updates commute row-by-row. -/
lemma processarLinhas_store :
    ∀ (ls : List String) (falha : Nat → Bool) (i : Nat) (acc : Resumo × Store),
    (processarLinhas falha ls i acc).2 = acc.2.map (aplicarLinhas falha ls i)
  | [], falha, i, acc => by
    exact (List.map_id'' (fun c => rfl) acc.2).symm
  | l :: ls, falha, i, acc => by
    rw [processarLinhas, processarLinhas_store ls falha (i + 1),
      processarLinha_store, List.map_map]
    rfl

/-! ### The tally of the fan-out -/



lemma processarLinha_processados (b : Bool) (acc : Resumo × Store) (l : String) :
    (processarLinha b acc l).1.processados =
      acc.1.processados + (if linhaIgnorada l then 0 else 1) := by
  simp only [processarLinha]
  split_ifs <;> simp_all

lemma processarLinha_pagos (b : Bool) (acc : Resumo × Store) (l : String) :
    (processarLinha b acc l).1.pagos =
      acc.1.pagos +
        (if !linhaIgnorada l && ehPago (extrairCodigo l) then 1 else 0) := by
  simp only [processarLinha]
  split_ifs <;> simp_all

lemma processarLinha_rejeitados (b : Bool) (acc : Resumo × Store) (l : String) :
    (processarLinha b acc l).1.rejeitados =
      acc.1.rejeitados +
        (if !linhaIgnorada l && !ehPago (extrairCodigo l) then 1 else 0) := by
  simp only [processarLinha]
  split_ifs <;> simp_all

lemma processarLinha_erros_semFalha (acc : Resumo × Store) (l : String) :
    (processarLinha false acc l).1.errosDeAtualizacao =
      acc.1.errosDeAtualizacao := by
  simp only [processarLinha]
  split_ifs <;> simp_all

lemma processarLinhas_processados :
    ∀ (ls : List String) (falha : Nat → Bool) (i : Nat) (acc : Resumo × Store),
    (processarLinhas falha ls i acc).1.processados =
      acc.1.processados + (linhasTransacao ls).length
  | [], _, _, _ => by simp [processarLinhas, linhasTransacao]
  | l :: ls, falha, i, acc => by
    rw [processarLinhas, processarLinhas_processados ls falha (i + 1),
      processarLinha_processados]
    simp only [linhasTransacao, List.filter_cons]
    by_cases hig : linhaIgnorada l <;> simp [hig, linhasTransacao] <;> omega

lemma processarLinhas_pagos :
    ∀ (ls : List String) (falha : Nat → Bool) (i : Nat) (acc : Resumo × Store),
    (processarLinhas falha ls i acc).1.pagos = acc.1.pagos + contaPagas ls
  | [], _, _, _ => by simp [processarLinhas, contaPagas]
  | l :: ls, falha, i, acc => by
    rw [processarLinhas, processarLinhas_pagos ls falha (i + 1),
      processarLinha_pagos]
    simp only [contaPagas, List.filter_cons]
    by_cases h : !linhaIgnorada l && ehPago (extrairCodigo l) <;>
      simp [h, contaPagas] <;> omega

lemma processarLinhas_rejeitados :
    ∀ (ls : List String) (falha : Nat → Bool) (i : Nat) (acc : Resumo × Store),
    (processarLinhas falha ls i acc).1.rejeitados =
      acc.1.rejeitados + contaRejeitadas ls
  | [], _, _, _ => by simp [processarLinhas, contaRejeitadas]
  | l :: ls, falha, i, acc => by
    rw [processarLinhas, processarLinhas_rejeitados ls falha (i + 1),
      processarLinha_rejeitados]
    simp only [contaRejeitadas, List.filter_cons]
    by_cases h : !linhaIgnorada l && !ehPago (extrairCodigo l) <;>
      simp [h, contaRejeitadas] <;> omega

lemma processarLinhas_erros_semFalha :
    ∀ (ls : List String) (i : Nat) (acc : Resumo × Store),
    (processarLinhas semFalha ls i acc).1.errosDeAtualizacao =
      acc.1.errosDeAtualizacao
  | [], _, _ => rfl
  | l :: ls, i, acc => by
    rw [processarLinhas, processarLinhas_erros_semFalha ls (i + 1)]
    exact processarLinha_erros_semFalha acc l

/-- Splitting the counted lines by a further test. -/
lemma comprimento_filtro_divide {α : Type} (l : List α) (p q : α → Bool) :
    (l.filter p).length =
      (l.filter fun a => p a && q a).length +
      (l.filter fun a => p a && !q a).length := by
  induction l with
  | nil => rfl
  | cons x xs ih =>
      by_cases hp : p x <;> by_cases hq : q x <;>
        simp [List.filter_cons, hp, hq, ih] <;> omega

/-- If two SQL oracles agree on every line whose update statement names
this row, the row ends the same way under both. -/
lemma aplicarLinhas_congr :
    ∀ (ls : List String) (f g : Nat → Bool) (i : Nat) (c : Cobranca),
    (∀ j, j < ls.length → linhaAplica (ls.getD j "") = true →
      extrairIdentificador (ls.getD j "") = c.id → f (i + j) = g (i + j)) →
    aplicarLinhas f ls i c = aplicarLinhas g ls i c
  | [], _, _, _, _, _ => rfl
  | l :: ls, f, g, i, c, h => by
    by_cases htoca : linhaAplica l = true ∧ extrairIdentificador l = c.id
    · have hfg : f i = g i := by
        have := h 0 (by simp) (by simpa using htoca.1) (by simpa using htoca.2)
        simpa using this
      rw [aplicarLinhas, aplicarLinhas, hfg]
      exact aplicarLinhas_congr ls f g (i + 1) (aplicarLinha (g i) l c)
        (fun j hj ha hi => by
          have := h (j + 1) (by simpa using hj)
            (by simpa using ha) (by rw [aplicarLinha_id] at hi; simpa using hi)
          have harit : i + (j + 1) = i + 1 + j := by omega
          rw [harit] at this
          exact this)
    · rw [aplicarLinhas, aplicarLinhas,
        aplicarLinha_naoToca (f i) l c htoca, aplicarLinha_naoToca (g i) l c htoca]
      exact aplicarLinhas_congr ls f g (i + 1) c
        (fun j hj ha hi => by
          have := h (j + 1) (by simpa using hj) (by simpa using ha)
            (by simpa using hi)
          have harit : i + (j + 1) = i + 1 + j := by omega
          rw [harit] at this
          exact this)

/-- A row whose id is not among the identifiers of the counted lines is
left alone by the whole file. -/
lemma aplicarLinhas_foraDoArquivo :
    ∀ (ls : List String) (falha : Nat → Bool) (i : Nat) (c : Cobranca),
    c.id ∉ identificadoresProcessados ls → aplicarLinhas falha ls i c = c
  | [], _, _, _, _ => rfl
  | l :: ls, falha, i, c, h => by
    by_cases hig : linhaIgnorada l
    · have hids : identificadoresProcessados (l :: ls) =
          identificadoresProcessados ls := by
        simp [identificadoresProcessados, linhasTransacao, List.filter_cons, hig]
      rw [hids] at h
      rw [aplicarLinhas, aplicarLinha_naoToca (falha i) l c
        (by simp [linhaAplica, hig])]
      exact aplicarLinhas_foraDoArquivo ls falha (i + 1) c h
    · have hids : identificadoresProcessados (l :: ls) =
          extrairIdentificador l :: identificadoresProcessados ls := by
        simp [identificadoresProcessados, linhasTransacao, List.filter_cons, hig]
      rw [hids] at h
      have h1 : c.id ≠ extrairIdentificador l := fun he => h (by simp [he])
      have h2 : c.id ∉ identificadoresProcessados ls := fun he => h (by simp [he])
      rw [aplicarLinhas, aplicarLinha_naoToca (falha i) l c
        (fun hc => h1 hc.2.symm)]
      exact aplicarLinhas_foraDoArquivo ls falha (i + 1) c h2

/-! ### The claims -/

/-- C2: the code_bug behaviour at the failing input.  The line `Tabc`
starts with the marker, is far shorter than 19 characters after it, and its
occurrence-code field `[17,19)` is empty after trimming — by the claim (and
the spec, section 4.2) it must not be applied.  The route nevertheless
counts it as rejected and sets the status of the existing charge `abc` to
the corrupted value `Rejeitado ()`, because the guard
`if (novoStatus && identificadorCobranca)` can never see an empty
`novoStatus`. -/
theorem c2_linha_curta_atualiza_mesmo_assim :
    comecaComT "Tabc" = true ∧
    extrairIdentificador "Tabc" = "abc" ∧
    extrairCodigo "Tabc" = "" ∧
    (processarRetorno semFalha ["Tabc"] [cobAbc]).2 =
      [{ cobAbc with status := "Rejeitado ()" }] ∧
    (processarRetorno semFalha ["Tabc"] [cobAbc]).1 = ⟨1, 0, 1, 0⟩ := by
  decide

/-- C9: every counted line increments exactly one of the two outcome
counters, so the summary always satisfies processed = paid + rejected,
whatever the store and whichever updates fail. -/
theorem c9_processados_sao_pagos_mais_rejeitados
    (falha : Nat → Bool) (linhas : List String) (st : Store) :
    (processarRetorno falha linhas st).1.processados =
      (processarRetorno falha linhas st).1.pagos +
        (processarRetorno falha linhas st).1.rejeitados := by
  unfold processarRetorno
  rw [processarLinhas_processados, processarLinhas_pagos,
    processarLinhas_rejeitados]
  have hdiv := comprimento_filtro_divide linhas (fun l => !linhaIgnorada l)
    (fun l => ehPago (extrairCodigo l))
  simp only [linhasTransacao, contaPagas, contaRejeitadas]
  simp only [hdiv]
  omega

/-- C10: the reconciliation is a per-row map that can only rewrite the
`status` field — `id`, `clienteId`, `descricao`, `valor`, `vencimento`,
`statusRemessa` and `nsa_remessa` survive every line — and a row whose id
is named by no counted line of the file comes out exactly as it went in. -/
theorem c10_reconciliacao_so_muda_status
    (falha : Nat → Bool) (linhas : List String) (st : Store) :
    (processarRetorno falha linhas st).2 =
      st.map (aplicarLinhas falha linhas 0) ∧
    (∀ c : Cobranca, mesmosCamposExcetoStatus c (aplicarLinhas falha linhas 0 c)) ∧
    (∀ c : Cobranca, c.id ∉ identificadoresProcessados linhas →
      aplicarLinhas falha linhas 0 c = c) :=
  ⟨processarLinhas_store linhas falha 0 _,
   fun c => aplicarLinhas_campos linhas falha 0 c,
   fun c h => aplicarLinhas_foraDoArquivo linhas falha 0 c h⟩

/-- C4: per-line failures are isolated.  Changing whether the update of
line `k` fails cannot change the three outcome counters other than the
failure count, nor the fate of any row that line `k` does not address; the
final table incorporates the effect of every line (the route joins on all
the updates before answering); and with a file present the route always
answers 200 with the tally, never a batch failure. -/
theorem c4_falhas_isoladas (linhas : List String) (f g : Nat → Bool) (k : Nat)
    (hfora : ∀ i, i ≠ k → f i = g i) (st : Store) (conteudoArquivo : String) :
    (processarRetorno f linhas st).1.processados =
      (processarRetorno g linhas st).1.processados ∧
    (processarRetorno f linhas st).1.pagos =
      (processarRetorno g linhas st).1.pagos ∧
    (processarRetorno f linhas st).1.rejeitados =
      (processarRetorno g linhas st).1.rejeitados ∧
    (∀ c ∈ st,
      ¬(linhaAplica (linhas.getD k "") = true ∧
        extrairIdentificador (linhas.getD k "") = c.id) →
      aplicarLinhas f linhas 0 c = aplicarLinhas g linhas 0 c) ∧
    (processarRetorno f linhas st).2 = st.map (aplicarLinhas f linhas 0) ∧
    (rotaProcessarRetorno f (some conteudoArquivo) st).ehOk = true := by
  refine ⟨?_, ?_, ?_, ?_, ?_, ?_⟩
  · unfold processarRetorno
    rw [processarLinhas_processados, processarLinhas_processados]
  · unfold processarRetorno
    rw [processarLinhas_pagos, processarLinhas_pagos]
  · unfold processarRetorno
    rw [processarLinhas_rejeitados, processarLinhas_rejeitados]
  · intro c _ h
    refine aplicarLinhas_congr linhas f g 0 c (fun j hj ha hi => ?_)
    rcases eq_or_ne j k with rfl | hjk
    · exact absurd ⟨ha, hi⟩ h
    · simpa using hfora j hjk
  · exact processarLinhas_store linhas f 0 _
  · rfl

/-- C4 witness: the theorem at a concrete file, with the oracle that fails
only the update of line 1. -/
theorem c4_falhas_isoladas_testemunha :
    (rotaProcessarRetorno (fun _ => false) (some "T\n") []).ehOk = true :=
  (c4_falhas_isoladas [] (fun _ => false) (fun i => decide (i = 1)) 1
    (fun i hi => by simp [hi]) [] "T\n").2.2.2.2.2

lemma atualizacao_igual {a b : Cobranca} (h : mesmosCamposExcetoStatus a b)
    (s : String) : { b with status := s } = { a with status := s } := by
  obtain ⟨h1, h2, h3, h4, h5, h6, h7⟩ := h
  cases a; cases b; simp_all

/-- C3: the resolved status of a transaction line is a function of its
trimmed occurrence code at offsets `[17,19)` — `00` and `PG` resolve to
`Pago`, anything else to the rejection literal carrying the code — and a
charge matching the extracted identifier ends the reconciliation with
exactly that status (provided no later line of the file addresses the same
identifier, the duplicate-identifier race the spec leaves open). -/
theorem c3_codigo_determina_status (pre post : List String) (l : String)
    (st : Store)
    (hkept : linhaIgnorada l = false)
    (hid : extrairIdentificador l ≠ "")
    (hpost : post.all (fun m =>
      !(linhaAplica m && (extrairIdentificador m == extrairIdentificador l)))
      = true) :
    novoStatusDe (extrairCodigo l) =
      (if extrairCodigo l = "00" ∨ extrairCodigo l = "PG" then "Pago"
       else "Rejeitado (" ++ extrairCodigo l ++ ")") ∧
    ∀ c ∈ st, c.id = extrairIdentificador l →
      { c with status := novoStatusDe (extrairCodigo l) } ∈
        (processarRetorno semFalha (pre ++ l :: post) st).2 := by
  constructor
  · simp only [novoStatusDe, ehPago]
    by_cases h1 : extrairCodigo l = "00" <;>
      by_cases h2 : extrairCodigo l = "PG" <;> simp [h1, h2]
  · intro c hc hcid
    have hstore := processarLinhas_store (pre ++ l :: post) semFalha 0
      (⟨0, 0, 0, 0⟩, st)
    unfold processarRetorno
    rw [hstore]
    have hc1 := aplicarLinhas_campos pre semFalha 0 c
    have hc1id : (aplicarLinhas semFalha pre 0 c).id = c.id := hc1.1
    have hF : aplicarLinhas semFalha (pre ++ l :: post) 0 c =
        { c with status := novoStatusDe (extrairCodigo l) } := by
      rw [aplicarLinhas_append, aplicarLinhas,
        show semFalha (0 + pre.length) = false from rfl,
        aplicarLinha_aplica l _ hkept hid (hc1id.trans hcid)]
      have hcond : ∀ m ∈ post,
          ¬(linhaAplica m = true ∧
            extrairIdentificador m =
              ({ aplicarLinhas semFalha pre 0 c with
                  status := novoStatusDe (extrairCodigo l) } : Cobranca).id) := by
        intro m hm hma
        simp only [List.all_eq_true] at hpost
        have hb := hpost m hm
        rw [hma.1] at hb
        have hne : extrairIdentificador m ≠ extrairIdentificador l := by
          simpa using hb
        have hidc : ({ aplicarLinhas semFalha pre 0 c with
            status := novoStatusDe (extrairCodigo l) } : Cobranca).id = c.id :=
          hc1id
        exact hne ((hma.2.trans hidc).trans hcid)
      rw [aplicarLinhas_naoTocaLista post semFalha (0 + pre.length + 1) _ hcond]
      exact atualizacao_igual hc1 _
    rw [← hF]
    exact List.mem_map_of_mem _ hc

lemma filtro_sobre_ids (st : Store) (p : String → Bool) :
    (st.filter fun c => p c.id).length =
      ((st.map Cobranca.id).filter p).length := by
  induction st with
  | nil => rfl
  | cons c cs ih => by_cases h : p c.id <;> simp [List.filter_cons, h, ih]

lemma comprimento_filtro_nao (l : List String) (q : String → Bool) :
    (l.filter q).length + (l.filter fun a => !q a).length = l.length := by
  induction l with
  | nil => rfl
  | cons x xs ih => by_cases h : q x <;> simp [List.filter_cons, h] <;> omega

lemma contagem_intersecao (xs ys : List String)
    (hx : xs.Nodup) (hy : ys.Nodup) :
    (xs.filter fun a => ys.contains a).length =
      (ys.filter fun a => xs.contains a).length := by
  have hx2 : (xs.filter fun a => ys.contains a).Nodup := hx.filter _
  have hy2 : (ys.filter fun a => xs.contains a).Nodup := hy.filter _
  rw [← List.toFinset_card_of_nodup hx2, ← List.toFinset_card_of_nodup hy2,
    List.toFinset_filter, List.toFinset_filter]
  have e1 : (xs.toFinset.filter fun a => ys.contains a) =
      xs.toFinset ∩ ys.toFinset := by
    ext a
    simp [Finset.mem_filter, Finset.mem_inter, List.contains_iff_exists_mem_beq,
      List.mem_toFinset, beq_iff_eq]
  have e2 : (ys.toFinset.filter fun a => xs.contains a) =
      ys.toFinset ∩ xs.toFinset := by
    ext a
    simp [Finset.mem_filter, Finset.mem_inter, List.contains_iff_exists_mem_beq,
      List.mem_toFinset, beq_iff_eq]
  rw [e1, e2, Finset.inter_comm]

/-- C1 as stated is false: a healthy SQLite store reports no update
failure for a well-formed line whose identifier matches no charge, because
`UPDATE ... WHERE id = ?` with an unknown id succeeds with zero affected
rows and the callback sees no `err`.  Here the file holds `N = 1`
well-formed transaction line, `M = 1` of which references an identifier
absent from the (empty) charge store, yet the summary reports
`updateFailures = 0`, not `M = 1`. -/
theorem c1_contraexemplo :
    linhasTransacao [linhaA00] = [linhaA00] ∧
    extrairIdentificador linhaA00 ≠ "" ∧
    extrairCodigo linhaA00 ≠ "" ∧
    ((identificadoresProcessados [linhaA00]).filter
      (fun x => !((([] : Store).map Cobranca.id).contains x))).length = 1 ∧
    (processarRetorno semFalha [linhaA00] []).1.processados = 1 ∧
    (processarRetorno semFalha [linhaA00] []).1.errosDeAtualizacao = 0 ∧
    ¬(processarRetorno semFalha [linhaA00] []).1.errosDeAtualizacao = 1 := by
  decide

/-- C1 amended: with every transaction line well-formed, distinct
identifiers in the file, distinct ids in the store and a healthy
repository, the summary reports `processed = N` and `updateFailures = 0`
(an identifier absent from the store is skipped silently, not counted as a
failure), every counted line issues an update statement, and exactly
`N - M` charges are addressed by those statements, where `M` counts the
lines whose identifier matches no charge. -/
theorem c1_resumo_emendado (linhas : List String) (st : Store)
    (hwf : linhas.all (fun l => linhaIgnorada l ||
      (extrairIdentificador l != "" && extrairCodigo l != "")) = true)
    (hnodupSt : (st.map Cobranca.id).Nodup)
    (hnodupIds : (identificadoresProcessados linhas).Nodup) :
    (processarRetorno semFalha linhas st).1.processados =
      (linhasTransacao linhas).length ∧
    (processarRetorno semFalha linhas st).1.errosDeAtualizacao = 0 ∧
    (∀ l ∈ linhasTransacao linhas, linhaAplica l = true) ∧
    (st.filter fun c =>
        (identificadoresProcessados linhas).contains c.id).length =
      (linhasTransacao linhas).length -
        ((identificadoresProcessados linhas).filter
          (fun x => !((st.map Cobranca.id).contains x))).length := by
  refine ⟨?_, ?_, ?_, ?_⟩
  · unfold processarRetorno
    rw [processarLinhas_processados]
    simp
  · unfold processarRetorno
    rw [processarLinhas_erros_semFalha]
  · intro l hl
    simp only [linhasTransacao, List.mem_filter] at hl
    simp only [List.all_eq_true] at hwf
    have hw := hwf l hl.1
    have hig : linhaIgnorada l = false := by simpa using hl.2
    rw [hig] at hw
    simp only [Bool.false_or] at hw
    simp [linhaAplica, hig, (Bool.and_eq_true_iff.mp hw).1]
  · rw [filtro_sobre_ids st
      (fun a => (identificadoresProcessados linhas).contains a)]
    rw [contagem_intersecao (st.map Cobranca.id)
      (identificadoresProcessados linhas) hnodupSt hnodupIds]
    have hdiv := comprimento_filtro_nao (identificadoresProcessados linhas)
      (fun a => (st.map Cobranca.id).contains a)
    have hlen : (identificadoresProcessados linhas).length =
        (linhasTransacao linhas).length := by
      simp [identificadoresProcessados]
    omega

/-- C1 witness: the amended theorem at a two-line file where the second
line references an identifier absent from the one-charge store. -/
theorem c1_resumo_emendado_testemunha :
    (processarRetorno semFalha [linhaA00, linhaB07] [cobA16]).1.processados =
      (linhasTransacao [linhaA00, linhaB07]).length ∧
    (processarRetorno semFalha [linhaA00, linhaB07] [cobA16]).1.errosDeAtualizacao = 0 ∧
    (∀ l ∈ linhasTransacao [linhaA00, linhaB07], linhaAplica l = true) ∧
    ([cobA16].filter fun c =>
        (identificadoresProcessados [linhaA00, linhaB07]).contains c.id).length =
      (linhasTransacao [linhaA00, linhaB07]).length -
        ((identificadoresProcessados [linhaA00, linhaB07]).filter
          (fun x => !(([cobA16].map Cobranca.id).contains x))).length :=
  c1_resumo_emendado [linhaA00, linhaB07] [cobA16]
    (by decide) (by decide) (by decide)

/-- C3 witness: in a file with a header line, the line `T` + sixteen `A` +
`00` and a trailing blank line, the one matching charge ends with the
resolved status. -/
theorem c3_codigo_determina_status_testemunha :
    { cobA16 with status := "Pago" } ∈
      (processarRetorno semFalha (["H0000"] ++ linhaA00 :: [""]) [cobA16]).2 := by
  have h := c3_codigo_determina_status ["H0000"] [""] linhaA00 [cobA16]
    (by decide) (by decide) (by decide)
  have h2 := h.2 cobA16 (by decide) (by decide)
  rw [show novoStatusDe (extrairCodigo linhaA00) = "Pago" by decide] at h2
  exact h2

/-- C5: with a non-empty id list and a present sequence value, the marking
route updates `shipmentSequence` and `shipmentStatus` of every charge whose
id is listed, leaves every other charge alone, silently skips listed ids
that match no charge, and reports the number of charges actually matched. -/
theorem c5_marcar_remessa (idsParaMarcar : List String) (nsaDaRemessa : String)
    (st : Store) (hids : idsParaMarcar ≠ []) (hnsa : nsaDaRemessa ≠ "") :
    ∃ st',
      marcarRemessa idsParaMarcar nsaDaRemessa st =
        .ok (st.filter fun c => idsParaMarcar.contains c.id).length st' ∧
      st'.length = st.length ∧
      (∀ c ∈ st, idsParaMarcar.contains c.id = true →
        { c with nsa_remessa := some nsaDaRemessa,
                 statusRemessa := "Processado" } ∈ st') ∧
      (∀ c ∈ st, idsParaMarcar.contains c.id = false → c ∈ st') := by
  refine ⟨st.map fun c =>
      if idsParaMarcar.contains c.id then
        { c with nsa_remessa := some nsaDaRemessa,
                 statusRemessa := "Processado" }
      else c, ?_, ?_, ?_, ?_⟩
  · unfold marcarRemessa
    rw [if_neg hnsa, if_neg (by simpa [List.isEmpty_iff] using hids)]
  · simp [List.length_map]
  · intro c hc hcid
    have hmem : c.id ∈ idsParaMarcar := by simpa using hcid
    have := List.mem_map_of_mem (fun c =>
      if idsParaMarcar.contains c.id then
        { c with nsa_remessa := some nsaDaRemessa,
                 statusRemessa := "Processado" }
      else c) hc
    simpa [hmem] using this
  · intro c hc hcid
    have hmem : c.id ∉ idsParaMarcar := by simpa using hcid
    have := List.mem_map_of_mem (fun c =>
      if idsParaMarcar.contains c.id then
        { c with nsa_remessa := some nsaDaRemessa,
                 statusRemessa := "Processado" }
      else c) hc
    simpa [hmem] using this

/-- C5 witness: marking `[c1, c2, c3]` with sequence `007` where `c2`
matches no charge updates the two existing charges and reports count 2. -/
theorem c5_marcar_remessa_testemunha :
    ∃ st', marcarRemessa ["c1", "c2", "c3"] "007" [cobC1, cobC3] =
      .ok 2 st' ∧
      { cobC1 with nsa_remessa := some "007",
                   statusRemessa := "Processado" } ∈ st' := by
  obtain ⟨st', h1, _, h3, _⟩ :=
    c5_marcar_remessa ["c1", "c2", "c3"] "007" [cobC1, cobC3]
      (by decide) (by decide)
  refine ⟨st', ?_, h3 cobC1 (by decide) (by decide)⟩
  rw [h1]
  rfl

/-- C6: archiving a non-empty set of snapshots under a period merges them
into that period's JSON archive — an existing list is extended, never
overwritten, and other periods' files are untouched — then deletes exactly
the corresponding charges from the live store; archiving again under the
same period appends to the merged list. -/
theorem c6_arquivar_acrescenta_e_remove (cobrancasParaArquivar : List Cobranca)
    (periodo : String) (arquivos : ArquivosRemessa) (st : Store)
    (hne : cobrancasParaArquivar ≠ []) :
    ∃ arq' st',
      arquivarRemessa cobrancasParaArquivar periodo arquivos st =
        some (arq', st') ∧
      arq' periodo =
        some (mesclarCobrancas (arquivos periodo) cobrancasParaArquivar) ∧
      (∀ antigas, arquivos periodo = some antigas →
        arq' periodo = some (antigas ++ cobrancasParaArquivar)) ∧
      (∀ p, p ≠ periodo → arq' p = arquivos p) ∧
      (∀ c ∈ st', c.id ∉ cobrancasParaArquivar.map Cobranca.id) ∧
      (∀ c ∈ st, c.id ∉ cobrancasParaArquivar.map Cobranca.id → c ∈ st') ∧
      (∀ novas, novas ≠ [] →
        ∃ arq2 st2,
          arquivarRemessa novas periodo arq' st' = some (arq2, st2) ∧
          arq2 periodo = some
            (mesclarCobrancas (arquivos periodo) cobrancasParaArquivar ++
              novas)) := by
  have hvazio : cobrancasParaArquivar.isEmpty = false := by
    simpa [List.isEmpty_iff] using hne
  refine ⟨_, _, by rw [arquivarRemessa, if_neg (by simp [hvazio])], ?_, ?_, ?_,
    ?_, ?_, ?_⟩
  · simp
  · intro antigas hant
    simp [hant, mesclarCobrancas]
  · intro p hp
    simp [hp]
  · intro c hc
    simp only [List.mem_filter] at hc
    simpa using hc.2
  · intro c hc hcid
    simp only [List.mem_filter]
    exact ⟨hc, by simpa using hcid⟩
  · intro novas hnovas
    have hvazio2 : novas.isEmpty = false := by
      simpa [List.isEmpty_iff] using hnovas
    refine ⟨_, _, by rw [arquivarRemessa, if_neg (by simp [hvazio2])], ?_⟩
    simp [mesclarCobrancas]

/-- C6 witness: archiving one charge under `2025-01` over an empty archive
directory stores its snapshot list and removes it from the live store. -/
theorem c6_arquivar_acrescenta_e_remove_testemunha :
    ∃ arq' st',
      arquivarRemessa [cobC1] "2025-01" (fun _ => none) [cobC1, cobC3] =
        some (arq', st') ∧
      arq' "2025-01" =
        some (mesclarCobrancas ((fun _ => none : ArquivosRemessa) "2025-01")
          [cobC1]) ∧
      (∀ c ∈ st', c.id ∉ [cobC1].map Cobranca.id) := by
  obtain ⟨arq', st', h1, h2, _, _, h5, _⟩ :=
    c6_arquivar_acrescenta_e_remove [cobC1] "2025-01" (fun _ => none)
      [cobC1, cobC3] (by decide)
  exact ⟨arq', st', h1, h2, h5⟩

lemma getConfig_preserva (cs : ConfigStore) (h : estadoConfigValido cs) :
    estadoConfigValido (getConfig cs).2 := by
  unfold getConfig
  cases hsel : selecionarConfig1 cs with
  | some r => exact h
  | none =>
      have hcs : cs = [] := by
        cases cs with
        | nil => rfl
        | cons r rest =>
            have hid : r.id = 1 := h.2 r (by simp)
            have : selecionarConfig1 (r :: rest) = some r := by
              simp [selecionarConfig1, List.find?, hid]
            rw [this] at hsel
            exact absurd hsel (by simp)
      subst hcs
      simp [selecionarConfig1, List.find?, configPadrao, estadoConfigValido]

lemma atualizarConfig_preserva (idParam : Nat) (v : Int) (cs : ConfigStore)
    (h : estadoConfigValido cs) :
    estadoConfigValido (atualizarConfig idParam v cs) := by
  constructor
  · simpa [atualizarConfig] using h.1
  · intro r hr
    simp only [atualizarConfig, List.mem_map] at hr
    obtain ⟨r0, hr0, hre⟩ := hr
    have := h.2 r0 hr0
    by_cases hcase : r0.id == idParam <;> simp [hcase] at hre <;>
      simp [← hre, this]

lemma aplicarConfigOps_preserva :
    ∀ (ops : List ConfigOp) (cs : ConfigStore), estadoConfigValido cs →
      estadoConfigValido (aplicarConfigOps cs ops)
  | [], _, h => h
  | op :: ops, cs, h => by
    have hstep : estadoConfigValido (aplicarConfigOp cs op) := by
      cases op with
      | buscar => exact getConfig_preserva cs h
      | atualizar idParam v => exact atualizarConfig_preserva idParam v cs h
    exact aplicarConfigOps_preserva ops (aplicarConfigOp cs op) hstep

/-- C7: the configuration row is a lazily created singleton.  A `GET` on an
empty table inserts and returns `(1, 0, '04')`; a `GET` on a table that
already holds the row returns it and writes nothing; and no sequence of
configuration requests can take a valid table (at most one row, of id 1) to
a table with a second row. -/
theorem c7_config_singleton :
    getConfig [] = (configPadrao, [configPadrao]) ∧
    (∀ cs r, selecionarConfig1 cs = some r → getConfig cs = (r, cs)) ∧
    (∀ cs, estadoConfigValido cs →
      ∀ ops, estadoConfigValido (aplicarConfigOps cs ops)) := by
  refine ⟨by decide, ?_, ?_⟩
  · intro cs r h
    simp [getConfig, h]
  · intro cs h ops
    exact aplicarConfigOps_preserva ops cs h

/-- C8: the customer listing is the customer table ordered by name
ascending, and the charge listing is the charge table ordered by due date
descending — each a permutation of its table, pairwise in order. -/
theorem c8_listagens_ordenadas (clientes : List Cliente) (cobrancas : Store) :
    (listarClientes clientes).Perm clientes ∧
    (listarClientes clientes).Pairwise (fun a b => a.nome ≤ b.nome) ∧
    (listarCobrancas cobrancas).Perm cobrancas ∧
    (listarCobrancas cobrancas).Pairwise
      (fun a b => b.vencimento ≤ a.vencimento) := by
  refine ⟨List.mergeSort_perm clientes _, ?_, List.mergeSort_perm cobrancas _, ?_⟩
  · have hs := @List.sorted_mergeSort Cliente
      (fun a b : Cliente => a.nome ≤ b.nome)
      (fun a b c hab hbc => by
        simp only [decide_eq_true_eq] at *
        exact le_trans hab hbc)
      (fun a b => by simpa using le_total a.nome b.nome)
      clientes
    exact hs.imp fun h => by simpa using h
  · have hs := @List.sorted_mergeSort Cobranca
      (fun a b : Cobranca => b.vencimento ≤ a.vencimento)
      (fun a b c hab hbc => by
        simp only [decide_eq_true_eq] at *
        exact le_trans hbc hab)
      (fun a b => by simpa using le_total b.vencimento a.vencimento)
      cobrancas
    exact hs.imp fun h => by simpa using h
